import Mathlib

set_option maxHeartbeats 1000000

/-!
Shallow embedding of `src/football-stats.py` (class `APIFootballClient`).

Python JSON values (as produced by `response.json()`) are modelled by `Value`,
with `Value.null` standing both for JSON `null` and for the Python `None`
return sentinel.  Computations are modelled in `PyM`, a writer-plus-exception
monad: the writer component records the observable events (printed lines and
issued HTTP GET requests) and the exception component models uncaught Python
exceptions (`KeyError`, `AttributeError`, `TypeError`).  The HTTP layer
(`requests.get` together with `raise_for_status` and `response.json()`) is
abstracted by an environment mapping (url, headers, params) to an outcome:
a transport-level failure, or a response with a status code and an optional
parsed JSON body (`none` models a body that is not valid JSON).
Since the Python methods never assign to `self`, every method is embedded in
state-passing style and returns the client value that is current at each
`return` site, so that state (non-)mutation is provable rather than assumed.
-/

/-- A Python value as obtained from parsed JSON (plus `None`). -/
inductive Value : Type where
  | null : Value
  | bool : Bool → Value
  | int : Int → Value
  | str : String → Value
  | list : List Value → Value
  | dict : List (String × Value) → Value

/-- Python truthiness (`bool(v)`). -/
def Value.truthy : Value → Bool
  | .null => false
  | .bool b => b
  | .int n => n != 0
  | .str s => !(s == "")
  | .list xs => !xs.isEmpty
  | .dict kvs => !kvs.isEmpty

/-- Python `v is None`. -/
def Value.isNull : Value → Bool
  | .null => true
  | _ => false

/-- Whether the value is a Python dict. -/
def Value.isDict : Value → Bool
  | .dict _ => true
  | _ => false

/-- First binding of key `k` in an association list (Python dicts have unique
keys, so first-match lookup is faithful). -/
def lookupV (kvs : List (String × Value)) (k : String) : Option Value :=
  (kvs.find? (fun p => p.1 == k)).map (fun p => p.2)

/-- Dictionary lookup on a `Value`, `none` when the value is not a dict or
the key is absent. -/
def Value.dlookup : Value → String → Option Value
  | .dict kvs, k => lookupV kvs k
  | _, _ => none

/-- An uncaught Python exception. -/
inductive PyErr : Type where
  | keyError : String → PyErr
  | attributeError : String → PyErr
  | typeError : String → PyErr

/-- An observable event: a printed line, or an HTTP GET issued by
`_make_request` (recorded as the endpoint and the query parameters). -/
inductive Ev : Type where
  | print : String → Ev
  | get : String → List (String × Value) → Ev

/-- Writer (event log) plus exception monad for the embedded Python code. -/
structure PyM (α : Type) : Type where
  log : List Ev
  res : Except PyErr α

def PyM.bind {α β : Type} (x : PyM α) (f : α → PyM β) : PyM β :=
  match x.res with
  | .error e => ⟨x.log, .error e⟩
  | .ok a => ⟨x.log ++ (f a).log, (f a).res⟩

instance : Monad PyM where
  pure a := ⟨[], .ok a⟩
  bind := PyM.bind

/-- `print(...)` with the given line. -/
def pyPrint (s : String) : PyM Unit := ⟨[Ev.print s], .ok ()⟩

/-- Raising an uncaught Python exception. -/
def pyRaise {α : Type} (e : PyErr) : PyM α := ⟨[], .error e⟩

/-- Python `d.get(k)` (default `None`); raises `AttributeError` when the
receiver is not a dict. -/
def pyGet (v : Value) (k : String) : PyM Value :=
  match v with
  | .dict kvs => pure ((lookupV kvs k).getD .null)
  | _ => pyRaise (.attributeError "get")

/-- Python `d.get(k, dflt)`; raises `AttributeError` when the receiver is not
a dict. -/
def pyGetD (v : Value) (k : String) (dflt : Value) : PyM Value :=
  match v with
  | .dict kvs => pure ((lookupV kvs k).getD dflt)
  | _ => pyRaise (.attributeError "get")

/-- Python subscript `d[k]`; `KeyError` when the key is absent, `TypeError`
when the receiver is not a dict. -/
def pyIndex (v : Value) (k : String) : PyM Value :=
  match v with
  | .dict kvs =>
    match lookupV kvs k with
    | some x => pure x
    | none => pyRaise (.keyError k)
  | _ => pyRaise (.typeError "not subscriptable")

/-- Python iteration `for x in v`: lists yield elements, dicts yield their
keys, strings yield their characters, other values raise `TypeError`. -/
def pyIter (v : Value) : PyM (List Value) :=
  match v with
  | .list xs => pure xs
  | .dict kvs => pure (kvs.map (fun p => Value.str p.1))
  | .str s => pure (s.toList.map (fun c => Value.str (String.mk [c])))
  | _ => pyRaise (.typeError "not iterable")

/-- Python `str.lower` for the ASCII names the source compares (defined by
mapping `Char.toLower` over the characters so that it computes by
reduction). -/
def strLower (s : String) : String := String.mk (s.data.map Char.toLower)

/-- Python `v.lower()`; raises `AttributeError` on non-strings. -/
def pyLower (v : Value) : PyM String :=
  match v with
  | .str s => pure (strLower s)
  | _ => pyRaise (.attributeError "lower")

/-- Python `x == s` where `s` is a string (used for `k in list`). -/
def valueEqStr (v : Value) (s : String) : Bool :=
  match v with
  | .str t => t == s
  | _ => false

/-- Python membership `k in v` for a string key: dict key containment, list
element equality, substring test for strings; `TypeError` otherwise. -/
def pyContains (k : String) (v : Value) : PyM Bool :=
  match v with
  | .dict kvs => pure (kvs.any (fun p => p.1 == k))
  | .list xs => pure (xs.any (fun x => valueEqStr x k))
  | .str s => pure ((s.splitOn k).length > 1 || k == "")
  | _ => pyRaise (.typeError "argument of type is not iterable")

/-- Python `x == n` where `n` is an int (Python compares bools numerically). -/
def pyEqInt (v : Value) (n : Int) : Bool :=
  match v with
  | .int m => m == n
  | .bool b => (if b then (1 : Int) else 0) == n
  | _ => false

/-- Python `str(v)` (container rendering abbreviated; only scalar renderings
are observable in the report lines the claims are about). -/
def pyStr : Value → String
  | .null => "None"
  | .bool b => if b then "True" else "False"
  | .int n => toString n
  | .str s => s
  | .list _ => "<list>"
  | .dict _ => "<dict>"

/-- Outcome of one `requests.get`: a transport-level exception, or a
response with an HTTP status and an optional parsed JSON body (`none` models
a body that is not valid JSON, i.e. `response.json()` raises). -/
inductive HttpOutcome : Type where
  | connError : String → HttpOutcome
  | timeout : String → HttpOutcome
  | reqError : String → HttpOutcome
  | resp : Nat → Option Value → HttpOutcome

/-- The HTTP world: maps (url, headers, params) to an outcome. -/
def Env : Type := String → List (String × String) → List (String × Value) → HttpOutcome

/-- `requests.get(url, headers=headers, params=params)`, recording the issued
request (tagged with its endpoint) in the event log. -/
def doGet (env : Env) (url : String) (headers : List (String × String))
    (endpoint : String) (params : List (String × Value)) : PyM HttpOutcome :=
  ⟨[Ev.get endpoint params], .ok (env url headers params)⟩

/-- The client object: the fields set in `__init__`. -/
structure APIFootballClient : Type where
  api_key : String
  base_url : String
  headers : List (String × String)

/-- `APIFootballClient.__init__`. -/
def APIFootballClient.init (api_key : String) : APIFootballClient :=
  { api_key := api_key
    base_url := "https://v3.football.api-sports.io"
    headers := [("x-apisports-key", api_key)] }

/-- A Python `return v` site inside a method: delivers the value together
with the client state current at the return (definitionally `pure`). -/
def pyReturn (v : Value) (c : APIFootballClient) : PyM (Value × APIFootballClient) :=
  ⟨[], .ok (v, c)⟩

/-- `APIFootballClient._make_request` (the leading underscore is dropped for
Lean).  Returns the Python return value paired with the client state at the
return site. -/
def APIFootballClient.make_request (self : APIFootballClient) (env : Env)
    (endpoint : String) (params : List (String × Value)) :
    PyM (Value × APIFootballClient) := do
  let url := self.base_url ++ "/" ++ endpoint
  let o ← doGet env url self.headers endpoint params
  match o with
  | .connError _ => do
    pyPrint "Connection error occurred - Check your Internet connection."
    pyReturn Value.null self
  | .timeout _ => do
    pyPrint "Timeout error occurred - The requeest took too long to respond."
    pyReturn Value.null self
  | .reqError _ => do
    pyPrint "Request error occurred"
    pyReturn Value.null self
  | .resp status body =>
    if 400 ≤ status ∧ status < 600 then do
      pyPrint "HTTP error occurred"
      if status == 403 then
        pyPrint "Error 403: Forbidden. Your API key may be invalid or you may not have access to this endpoint."
      else if status == 429 then
        pyPrint "Error 429: Too Many Requests. You have exceeded your API rate limit."
      pyReturn Value.null self
    else
      match body with
      | none => do
        pyPrint "Error: Could not decode JSON response. The API might have returned non-JSON data."
        pyReturn Value.null self
      | some data => do
        let r ←
          if data.truthy then pyGet data "response"
          else pure Value.null
        if data.truthy && r.truthy then do
          let payload ← pyIndex data "response"
          pyReturn payload self
        else do
          let errs ← pyGet data "errors"
          if errs.truthy then
            pyPrint "API Error: errors field present"
          pyReturn (Value.list []) self

/-- Inner loop of `get_league_id` lines 110-114: scan one league record's
season list for an entry whose `year` equals the requested season and whose
`current` flag is truthy; on the first such entry return `league_data['id']`. -/
def scanSeasons (season : Int) (league_data : Value) : List Value → PyM (Option Value)
  | [] => pure none
  | season_info :: rest => do
    let y ← pyGet season_info "year"
    if pyEqInt y season then do
      let c ← pyGetD season_info "current" (Value.bool false)
      if c.truthy then do
        let i ← pyIndex league_data "id"
        pure (some i)
      else
        scanSeasons season league_data rest
    else
      scanSeasons season league_data rest

/-- Outer loop of `get_league_id` lines 108-114 over the league records. -/
def scanLeagues (season : Int) : List Value → PyM (Option Value)
  | [] => pure none
  | league_data :: rest => do
    let seasons ← pyGetD league_data "seasons" (Value.list [])
    let sitems ← pyIter seasons
    let r ← scanSeasons season league_data sitems
    match r with
    | some i => pure (some i)
    | none => scanLeagues season rest

/-- Fallback loop of `get_league_id` lines 118-121: return the id of the
first record whose `id` is truthy, printing the warning. -/
def fallbackLeagues : List Value → PyM (Option Value)
  | [] => pure none
  | league_data :: rest => do
    let i ← pyGet league_data "id"
    if i.truthy then do
      pyPrint "Warning: No current season found. Returning ID for any available season."
      let v ← pyIndex league_data "id"
      pure (some v)
    else
      fallbackLeagues rest

/-- `APIFootballClient.get_league_id`.  `nowYear` models
`datetime.now().year`; `current_season = none` models the Python default
argument `None`. -/
def APIFootballClient.get_league_id (self : APIFootballClient) (env : Env)
    (nowYear : Int) (league_name country_name : String)
    (current_season : Option Int) : PyM (Value × APIFootballClient) := do
  let season : Int := current_season.getD nowYear
  let params := [("name", Value.str league_name), ("country", Value.str country_name),
                 ("season", Value.int season)]
  let (leagues, self1) ← self.make_request env "leagues" params
  if !leagues.truthy then do
    pyPrint "No leagues found."
    pyReturn Value.null self1
  else do
    let items ← pyIter leagues
    let r ← scanLeagues season items
    match r with
    | some i => pyReturn i self1
    | none => do
      let r2 ← fallbackLeagues items
      match r2 with
      | some i => pyReturn i self1
      | none => do
        pyPrint "Could not find a current league ID."
        pyReturn Value.null self1

/-- `APIFootballClient.get_team_id`.  Lines 151-157 of the source put the
not-found print and `return None` inside the `for` loop body, so only the
first candidate is ever examined; the embedding reproduces that. -/
def APIFootballClient.get_team_id (self : APIFootballClient) (env : Env)
    (nowYear : Int) (team_name : String) (league_id : Value)
    (current_season : Option Int) : PyM (Value × APIFootballClient) := do
  let season : Int := current_season.getD nowYear
  let params := [("league", league_id), ("season", Value.int season),
                 ("search", Value.str team_name)]
  let (teams_data, self1) ← self.make_request env "teams" params
  if !teams_data.truthy then do
    pyPrint "No teams found."
    pyReturn Value.null self1
  else do
    let items ← pyIter teams_data
    match items with
    | [] => pyReturn Value.null self1
    | team_info :: _ => do
      let t ← pyIndex team_info "team"
      let nm ← pyIndex t "name"
      let nmLower ← pyLower nm
      if nmLower == strLower team_name then do
        let t2 ← pyIndex team_info "team"
        let i ← pyIndex t2 "id"
        pyReturn i self1
      else do
        pyPrint "Team not found. Check spelling."
        pyReturn Value.null self1

/-- Report part of `get_team_statistics`, source lines 205-211: the general
(league and team identity) sections. -/
def reportGeneral (team_stats : Value) : PyM Unit := do
  let hasLeague ← pyContains "league" team_stats
  if hasLeague then do
    let lg ← pyIndex team_stats "league"
    let nm ← pyGet lg "name"
    pyPrint ("League: " ++ pyStr nm)
    let co ← pyGet lg "country"
    pyPrint ("Country: " ++ pyStr co)
  let hasTeam ← pyContains "team" team_stats
  if hasTeam then do
    let tm ← pyIndex team_stats "team"
    let nm ← pyGet tm "name"
    pyPrint ("Team: " ++ pyStr nm)
    let fo ← pyGet tm "founded"
    pyPrint ("Founded: " ++ pyStr fo)

/-- Report part of `get_team_statistics`, source lines 213-230: the fixtures
section.  Note the source accesses `fixtures[played]`, `fixtures[wins]`,
`fixtures[draws]`, `fixtures[losses]` by subscript (KeyError when absent)
even though its comment says `.get` is used to prevent that. -/
def reportFixtures (team_stats : Value) : PyM Unit := do
  let hasFixtures ← pyContains "fixtures" team_stats
  if hasFixtures then do
    let fixtures ← pyIndex team_stats "fixtures"
    pyPrint "fixtures:"
    let pl ← pyIndex fixtures "played"
    let v1 ← pyGet pl "total"
    pyPrint (" played (Total): " ++ pyStr v1)
    let wi ← pyIndex fixtures "wins"
    let v2 ← pyGet wi "total"
    pyPrint (" Wins (Total): " ++ pyStr v2)
    let dr ← pyIndex fixtures "draws"
    let v3 ← pyGet dr "total"
    pyPrint (" Draws (Total): " ++ pyStr v3)
    let lo ← pyIndex fixtures "losses"
    let v4 ← pyGet lo "total"
    pyPrint (" Losses (Total): " ++ pyStr v4)
    let v5 ← pyGet pl "home"
    pyPrint (" Played (Home): " ++ pyStr v5)
    let v6 ← pyGet wi "home"
    pyPrint (" Wins (Home): " ++ pyStr v6)
    let v7 ← pyGet dr "home"
    pyPrint (" Draws (Home): " ++ pyStr v7)
    let v8 ← pyGet lo "home"
    pyPrint (" Losses (Home): " ++ pyStr v8)
    let v9 ← pyGet pl "away"
    pyPrint (" Played (Away): " ++ pyStr v9)
    let v10 ← pyGet wi "away"
    pyPrint (" Wins (Away): " ++ pyStr v10)
    let v11 ← pyGet dr "away"
    pyPrint (" Draws (Away): " ++ pyStr v11)
    let v12 ← pyGet lo "away"
    pyPrint (" Losses (Away): " ++ pyStr v12)

/-- Report part of `get_team_statistics`, source lines 233-265: the goals
section.  In the source the clean-sheets and failed-to-score sections, the
closing separator and the final `return team_stats` are all indented inside
the `if goals in team_stats` block, so when `goals` is absent the function
falls off the end and returns `None`; the embedding reproduces that. -/
def reportGoals (team_stats : Value) (self : APIFootballClient) :
    PyM (Value × APIFootballClient) := do
  let hasGoals ← pyContains "goals" team_stats
  if hasGoals then do
    let goals ← pyIndex team_stats "goals"
    pyPrint "Goals:"
    let gFor ← pyIndex goals "for"
    let ft ← pyGetD gFor "total" (Value.dict [])
    let ftt ← pyGet ft "total"
    pyPrint (" For (Total): " ++ pyStr ftt)
    let gAg ← pyIndex goals "against"
    let at_ ← pyGetD gAg "total" (Value.dict [])
    let att ← pyGet at_ "total"
    pyPrint (" Against (Total): " ++ pyStr att)
    let hasAvgFor ← pyContains "average" gFor
    if hasAvgFor then do
      let av ← pyIndex gFor "average"
      let a1 ← pyGet av "home"
      pyPrint (" Average Goals For (Home): " ++ pyStr a1)
      let a2 ← pyGet av "away"
      pyPrint (" Average Goals For (Away): " ++ pyStr a2)
      let a3 ← pyGet av "total"
      pyPrint (" Average Goals For (Total): " ++ pyStr a3)
    let hasAvgAg ← pyContains "average" gAg
    if hasAvgAg then do
      let av ← pyIndex gAg "average"
      let a1 ← pyGet av "home"
      pyPrint (" Average Goals Against (Home): " ++ pyStr a1)
      let a2 ← pyGet av "away"
      pyPrint (" Average Goals Against (Away): " ++ pyStr a2)
      let a3 ← pyGet av "total"
      pyPrint (" Average Goals Against (Total): " ++ pyStr a3)
    let hasCS ← pyContains "clean_sheets" team_stats
    if hasCS then do
      let cs ← pyIndex team_stats "clean_sheets"
      pyPrint "Clean Sheets:"
      let c1 ← pyGet cs "total"
      pyPrint (" Total: " ++ pyStr c1)
      let c2 ← pyGet cs "home"
      pyPrint (" Home: " ++ pyStr c2)
      let c3 ← pyGet cs "away"
      pyPrint (" Away: " ++ pyStr c3)
    let hasFTS ← pyContains "failed_to_score" team_stats
    if hasFTS then do
      let fts ← pyIndex team_stats "failed_to_score"
      pyPrint "Failed to Score:"
      let f1 ← pyGet fts "total"
      pyPrint (" Total: " ++ pyStr f1)
      let f2 ← pyGet fts "home"
      pyPrint (" Home: " ++ pyStr f2)
      let f3 ← pyGet fts "away"
      pyPrint (" Away: " ++ pyStr f3)
    pyPrint "-------------------------------------------"
    pyReturn team_stats self
  else
    pyReturn Value.null self

/-- `APIFootballClient.get_team_statistics`: orchestrates league resolution,
team resolution and the statistics request, then prints the report (the
report sections are factored into the `report...` helpers above, preserving
the statement order of source lines 195-265). -/
def APIFootballClient.get_team_statistics (self : APIFootballClient) (env : Env)
    (nowYear : Int) (team_name league_name country_name : String) :
    PyM (Value × APIFootballClient) := do
  let current_year : Int := nowYear
  pyPrint "Searching for the League ID..."
  let (league_id, self1) ← self.get_league_id env nowYear league_name country_name (some current_year)
  if league_id.isNull then
    pyReturn Value.null self1
  else do
    pyPrint "Found League ID"
    pyPrint "Searching for Team ID..."
    let (team_id, self2) ← self1.get_team_id env nowYear team_name league_id (some current_year)
    if team_id.isNull then
      pyReturn Value.null self2
    else do
      pyPrint "Found Team ID"
      pyPrint "Fetching statistics..."
      let params := [("league", league_id), ("team", team_id),
                     ("season", Value.int current_year)]
      let (statistics_data, self3) ← self2.make_request env "teams/statistics" params
      if !statistics_data.truthy then do
        pyPrint "No statistics found."
        pyReturn Value.null self3
      else do
        let team_stats := statistics_data
        pyPrint "--- Statistics ---"
        reportGeneral team_stats
        reportFixtures team_stats
        reportGoals team_stats self3

/-! ## Spec-side predicates and auxiliary definitions -/

/-- Spec wording (league resolver): a season entry matches when its `year`
equals the requested season and its `current` flag is truthy. -/
def specSeasonMatch (season : Int) (season_info : Value) : Bool :=
  pyEqInt ((season_info.dlookup "year").getD .null) season &&
    ((season_info.dlookup "current").getD (Value.bool false)).truthy

/-- Spec wording (league resolver): a league record matches when some entry
of its season list matches the requested season. -/
def specLeagueMatch (season : Int) (league_data : Value) : Bool :=
  match (league_data.dlookup "seasons").getD (Value.list []) with
  | .list xs => xs.any (specSeasonMatch season)
  | _ => false

/-- Spec wording (league fallback): the record's `id` value under Python
truthiness, `None` when absent. -/
def recId (league_data : Value) : Value :=
  (league_data.dlookup "id").getD .null

/-- Spec wording (league fallback): the record's `id` is present and truthy. -/
def hasTruthyId (league_data : Value) : Bool :=
  (recId league_data).truthy

/-- A well-formed league record: a dict whose `seasons` entry (defaulting to
the empty list) is a list of dicts. -/
def wfLeague (league_data : Value) : Bool :=
  league_data.isDict &&
    (match (league_data.dlookup "seasons").getD (Value.list []) with
     | .list xs => xs.all Value.isDict
     | _ => false)

/-- A non-empty JSON array or object (the spec data model allows only these
two shapes for the envelope `response` payload). -/
def isNonemptyContainer : Value → Bool
  | .list xs => !xs.isEmpty
  | .dict kvs => !kvs.isEmpty
  | _ => false

/-- An empty JSON array or object. -/
def isEmptyContainer : Value → Bool
  | .list xs => xs.isEmpty
  | .dict kvs => kvs.isEmpty
  | _ => false

/-- The outcomes of the error taxonomy that `_make_request` maps to a falsy
sentinel: transport failures, 4xx/5xx statuses, non-JSON bodies, and JSON
object bodies whose `response` field is absent or falsy (this includes the
errors-only envelope and the empty-response envelope). -/
def HttpOutcome.errorish : HttpOutcome → Bool
  | .connError _ => true
  | .timeout _ => true
  | .reqError _ => true
  | .resp status body =>
    if 400 ≤ status ∧ status < 600 then true
    else
      match body with
      | none => true
      | some (.dict kvs) => !((lookupV kvs "response").getD .null).truthy
      | some _ => false

/-- The client state delivered at the return site of a method call, `none`
when the call raised. -/
def finalClient (m : PyM (Value × APIFootballClient)) : Option APIFootballClient :=
  match m.res with
  | .ok (_, c) => some c
  | .error _ => none

/-- Every event of the computation's log satisfies `P`. -/
def LogAll {α : Type} (P : Ev → Bool) (m : PyM α) : Prop := m.log.all P = true

/-- Every `.ok` result of the computation carries client state `c`. -/
def ClientFixed (c : APIFootballClient) (m : PyM (Value × APIFootballClient)) : Prop :=
  ∀ v c2, m.res = .ok (v, c2) → c2 = c

/-- The event is a print, or a GET whose `season` query parameter is the
integer `year`. -/
def seasonEv (year : Int) : Ev → Bool
  | .print _ => true
  | .get _ ps =>
    match lookupV ps "season" with
    | some (.int y) => y == year
    | _ => false

/-- The event is not a GET to the `teams/statistics` endpoint. -/
def notStatsEv : Ev → Bool
  | .print _ => true
  | .get ep _ => !(ep == "teams/statistics")

/-! ## Concrete fixtures used by counterexamples and witnesses -/

/-- A client constructed as at the bottom of the script. -/
def clientA : APIFootballClient := APIFootballClient.init "YOU_APISPORTS_KEY"

/-- Search candidate record for Manchester United (id 33). -/
def teamMU : Value :=
  .dict [("team", .dict [("id", .int 33), ("name", .str "Manchester United")])]

/-- Search candidate record for Manchester City (id 50). -/
def teamMC : Value :=
  .dict [("team", .dict [("id", .int 50), ("name", .str "Manchester City")])]

/-- Environment returning the same outcome for every request. -/
def envConst (o : HttpOutcome) : Env := fun _ _ _ => o

/-- Environment answering every request with a successful envelope whose
`response` is the given value. -/
def envResp (v : Value) : Env :=
  envConst (.resp 200 (some (.dict [("response", v)])))

/-- League record: id 39, one season entry for 2024 flagged current. -/
def leagueCur2024 : Value :=
  .dict [("id", .int 39),
         ("seasons", .list [.dict [("year", .int 2024), ("current", .bool true)]])]

/-- League record with `id` equal to the integer 0 and no seasons. -/
def leagueId0 : Value := .dict [("id", .int 0), ("seasons", .list [])]

/-- League record: id 39, one season entry for 2025 flagged current. -/
def leagueCur2025 : Value :=
  .dict [("id", .int 39),
         ("seasons", .list [.dict [("year", .int 2025), ("current", .bool true)]])]

/-- A statistics payload with league, team, fixtures and clean-sheets
sections but no `goals` key. -/
def statsNoGoals : Value :=
  .dict [("league", .dict [("name", .str "Premier League"), ("country", .str "England")]),
         ("team", .dict [("name", .str "Manchester United"), ("founded", .int 1878)]),
         ("fixtures", .dict [("played", .dict [("total", .int 3)]),
                             ("wins", .dict [("total", .int 1)]),
                             ("draws", .dict [("total", .int 1)]),
                             ("losses", .dict [("total", .int 1)])]),
         ("clean_sheets", .dict [("total", .int 1)])]

/-- A statistics payload whose `fixtures` section is present but empty
(missing the `played` key accessed by subscript). -/
def statsBadFixtures : Value :=
  .dict [("goals", .dict []), ("fixtures", .dict [])]

/-- A statistics payload with only a `goals` section (no `fixtures` key),
the shape of the spec scenario for omitted sections. -/
def statsGoalsOnly : Value :=
  .dict [("goals", .dict [("for", .dict [("total", .dict [("total", .int 5)])]),
                          ("against", .dict [("total", .dict [("total", .int 2)])])])]

/-- League record: id 40, whose only season entry is not for the requested
year (used to exercise the fallback path). -/
def leagueOld : Value :=
  .dict [("id", .int 40),
         ("seasons", .list [.dict [("year", .int 2023), ("current", .bool true)]])]

/-- Pipeline environment: league search finds `leagueCur2025`, team search
finds `teamMU`, statistics request returns the given payload. -/
def envPipeline (stats : Value) : Env := fun url _ _ =>
  if url == "https://v3.football.api-sports.io/leagues" then
    .resp 200 (some (.dict [("response", .list [leagueCur2025])]))
  else if url == "https://v3.football.api-sports.io/teams" then
    .resp 200 (some (.dict [("response", .list [teamMU])]))
  else
    .resp 200 (some (.dict [("response", stats)]))

/-! ## Monad and log lemmas -/

theorem PyM.bind_eq {α β : Type} (x : PyM α) (f : α → PyM β) :
    x >>= f = PyM.bind x f := rfl

theorem PyM.pure_eq {α : Type} (a : α) : (pure a : PyM α) = ⟨[], .ok a⟩ := rfl

theorem logAll_bind {α β : Type} {P : Ev → Bool} {x : PyM α} {f : α → PyM β}
    (hx : LogAll P x) (hf : ∀ a, LogAll P (f a)) : LogAll P (x >>= f) := by
  unfold LogAll at *
  rw [PyM.bind_eq]
  unfold PyM.bind
  split
  · exact hx
  · simpa [List.all_append, hx] using hf _

theorem logAll_pure {α : Type} (P : Ev → Bool) (a : α) : LogAll P (pure a : PyM α) := rfl

theorem logAll_print {P : Ev → Bool} (s : String) (h : P (Ev.print s) = true) :
    LogAll P (pyPrint s) := by simp [LogAll, pyPrint, h]

theorem logAll_raise {α : Type} (P : Ev → Bool) (e : PyErr) :
    LogAll P (pyRaise e : PyM α) := rfl

theorem logAll_pyGet (P : Ev → Bool) (v : Value) (k : String) :
    LogAll P (pyGet v k) := by
  unfold LogAll pyGet; split <;> rfl

theorem logAll_pyGetD (P : Ev → Bool) (v : Value) (k : String) (d : Value) :
    LogAll P (pyGetD v k d) := by
  unfold LogAll pyGetD; split <;> rfl

theorem logAll_pyIndex (P : Ev → Bool) (v : Value) (k : String) :
    LogAll P (pyIndex v k) := by
  unfold LogAll pyIndex
  split
  · split <;> rfl
  · rfl

theorem logAll_pyIter (P : Ev → Bool) (v : Value) : LogAll P (pyIter v) := by
  unfold LogAll pyIter; split <;> rfl

theorem logAll_pyLower (P : Ev → Bool) (v : Value) : LogAll P (pyLower v) := by
  unfold LogAll pyLower; split <;> rfl

theorem logAll_pyContains (P : Ev → Bool) (k : String) (v : Value) :
    LogAll P (pyContains k v) := by
  unfold LogAll pyContains; split <;> rfl

/-! ## Client-state lemmas -/

theorem fixed_pure (c : APIFootballClient) (v : Value) :
    ClientFixed c (pure (v, c)) := by
  intro v2 c2 h
  simp [PyM.pure_eq] at h
  exact h.2.symm

theorem fixed_raise (c : APIFootballClient) (e : PyErr) :
    ClientFixed c (pyRaise e) := by
  intro v2 c2 h
  simp [pyRaise] at h

theorem fixed_bind_val {α : Type} {c : APIFootballClient} {x : PyM α}
    {f : α → PyM (Value × APIFootballClient)}
    (hf : ∀ a, ClientFixed c (f a)) : ClientFixed c (x >>= f) := by
  intro v c2 h
  rw [PyM.bind_eq] at h
  unfold PyM.bind at h
  split at h
  · simp at h
  · exact hf _ v c2 h

theorem fixed_bind_pair {c : APIFootballClient} {x : PyM (Value × APIFootballClient)}
    {f : Value × APIFootballClient → PyM (Value × APIFootballClient)}
    (hx : ClientFixed c x) (hf : ∀ v, ClientFixed c (f (v, c))) :
    ClientFixed c (x >>= f) := by
  intro v c2 h
  rw [PyM.bind_eq] at h
  unfold PyM.bind at h
  split at h
  · simp at h
  next a heq =>
    obtain ⟨v0, c0⟩ := a
    have hc0 : c0 = c := hx v0 c0 heq
    subst hc0
    exact hf v0 v c2 h

theorem fixed_return (c : APIFootballClient) (v : Value) :
    ClientFixed c (pyReturn v c) := by
  intro v2 c2 h
  simp [pyReturn] at h
  exact h.2.symm

theorem make_request_fixed (self : APIFootballClient) (env : Env)
    (ep : String) (ps : List (String × Value)) :
    ClientFixed self (self.make_request env ep ps) := by
  unfold APIFootballClient.make_request
  apply fixed_bind_val
  intro o
  cases o <;>
  repeat' first
  | exact fixed_return _ _
  | exact fixed_raise _ _
  | (apply fixed_bind_val; intro _)
  | dsimp only
  | split

theorem glid_fixed (self : APIFootballClient) (env : Env) (ny : Int)
    (ln cn : String) (cs : Option Int) :
    ClientFixed self (self.get_league_id env ny ln cn cs) := by
  unfold APIFootballClient.get_league_id
  apply fixed_bind_pair (make_request_fixed _ _ _ _)
  intro v
  repeat' first
  | exact fixed_return _ _
  | exact fixed_raise _ _
  | (apply fixed_bind_val; intro _)
  | dsimp only
  | split

theorem gtid_fixed (self : APIFootballClient) (env : Env) (ny : Int)
    (tn : String) (lid : Value) (cs : Option Int) :
    ClientFixed self (self.get_team_id env ny tn lid cs) := by
  unfold APIFootballClient.get_team_id
  apply fixed_bind_pair (make_request_fixed _ _ _ _)
  intro v
  repeat' first
  | exact fixed_return _ _
  | exact fixed_raise _ _
  | (apply fixed_bind_val; intro _)
  | dsimp only
  | split

theorem gts_fixed (self : APIFootballClient) (env : Env) (ny : Int)
    (tn ln cn : String) :
    ClientFixed self (self.get_team_statistics env ny tn ln cn) := by
  unfold APIFootballClient.get_team_statistics
  apply fixed_bind_val
  intro u1
  apply fixed_bind_pair (glid_fixed _ _ _ _ _ _)
  intro v1
  dsimp only
  split
  · exact fixed_return _ _
  · apply fixed_bind_val
    intro u2
    apply fixed_bind_val
    intro u3
    apply fixed_bind_pair (gtid_fixed _ _ _ _ _ _)
    intro v2
    dsimp only
    split
    · exact fixed_return _ _
    · apply fixed_bind_val
      intro u4
      apply fixed_bind_val
      intro u5
      apply fixed_bind_pair (make_request_fixed _ _ _ _)
      intro v3
      repeat' first
      | exact fixed_return _ _
      | exact fixed_raise _ _
      | (apply fixed_bind_val; intro _)
      | dsimp only
      | split

/-! ## Event-log lemmas for each embedded function -/

theorem logAll_of_nil {α : Type} {P : Ev → Bool} {m : PyM α} (h : m.log = []) :
    LogAll P m := by simp [LogAll, h]

theorem logAll_return (P : Ev → Bool) (v : Value) (c : APIFootballClient) :
    LogAll P (pyReturn v c) := rfl

theorem logAll_doGet {P : Ev → Bool} (env : Env) (url : String)
    (hs : List (String × String)) (ep : String) (ps : List (String × Value))
    (hg : P (Ev.get ep ps) = true) : LogAll P (doGet env url hs ep ps) := by
  simp [LogAll, doGet, hg]

theorem log_bind_nil {α β : Type} {x : PyM α} {f : α → PyM β} (hx : x.log = [])
    (hf : ∀ a, (f a).log = []) : (x >>= f).log = [] := by
  rw [PyM.bind_eq]; unfold PyM.bind; split <;> simp [hx, hf]

theorem pyGet_log (v : Value) (k : String) : (pyGet v k).log = [] := by
  unfold pyGet; split <;> rfl

theorem pyGetD_log (v : Value) (k : String) (d : Value) : (pyGetD v k d).log = [] := by
  unfold pyGetD; split <;> rfl

theorem pyIndex_log (v : Value) (k : String) : (pyIndex v k).log = [] := by
  unfold pyIndex
  split
  · split <;> rfl
  · rfl

theorem pyIter_log (v : Value) : (pyIter v).log = [] := by
  unfold pyIter; split <;> rfl

theorem pyLower_log (v : Value) : (pyLower v).log = [] := by
  unfold pyLower; split <;> rfl

theorem scanSeasons_log (season : Int) (ld : Value) (xs : List Value) :
    (scanSeasons season ld xs).log = [] := by
  induction xs with
  | nil => rfl
  | cons h t ih =>
    unfold scanSeasons
    repeat' first
    | exact ih
    | exact pyGet_log _ _
    | exact pyGetD_log _ _ _
    | exact pyIndex_log _ _
    | rfl
    | apply log_bind_nil
    | intro _
    | split

theorem scanLeagues_log (season : Int) (xs : List Value) :
    (scanLeagues season xs).log = [] := by
  induction xs with
  | nil => rfl
  | cons h t ih =>
    unfold scanLeagues
    repeat' first
    | exact ih
    | exact pyGet_log _ _
    | exact pyGetD_log _ _ _
    | exact pyIter_log _
    | exact scanSeasons_log _ _ _
    | rfl
    | apply log_bind_nil
    | intro _
    | split

theorem fallback_logAll {P : Ev → Bool} (hp : ∀ s, P (Ev.print s) = true)
    (xs : List Value) : LogAll P (fallbackLeagues xs) := by
  induction xs with
  | nil => exact logAll_pure _ _
  | cons h t ih =>
    unfold fallbackLeagues
    repeat' first
    | exact ih
    | exact logAll_pyGet _ _ _
    | exact logAll_pyIndex _ _ _
    | exact logAll_print _ (hp _)
    | exact logAll_pure _ _
    | apply logAll_bind
    | intro _
    | split

theorem make_request_logAll {P : Ev → Bool} (self : APIFootballClient) (env : Env)
    (ep : String) (ps : List (String × Value))
    (hp : ∀ s, P (Ev.print s) = true) (hg : P (Ev.get ep ps) = true) :
    LogAll P (self.make_request env ep ps) := by
  unfold APIFootballClient.make_request
  apply logAll_bind (logAll_doGet _ _ _ _ _ hg)
  intro o
  cases o <;>
  repeat' first
  | exact logAll_return _ _ _
  | exact logAll_raise _ _
  | exact logAll_print _ (hp _)
  | exact logAll_pyGet _ _ _
  | exact logAll_pyIndex _ _ _
  | exact logAll_pure _ _
  | apply logAll_bind
  | intro _
  | dsimp only
  | split

theorem glid_logAll {P : Ev → Bool} (self : APIFootballClient) (env : Env)
    (ny : Int) (ln cn : String) (cs : Option Int)
    (hp : ∀ s, P (Ev.print s) = true)
    (hg : P (Ev.get "leagues"
      [("name", Value.str ln), ("country", Value.str cn),
       ("season", Value.int (cs.getD ny))]) = true) :
    LogAll P (self.get_league_id env ny ln cn cs) := by
  unfold APIFootballClient.get_league_id
  apply logAll_bind (make_request_logAll _ _ _ _ hp hg)
  intro a
  obtain ⟨v, c⟩ := a
  repeat' first
  | exact logAll_return _ _ _
  | exact logAll_raise _ _
  | exact logAll_print _ (hp _)
  | exact logAll_pyIter _ _
  | exact logAll_of_nil (scanLeagues_log _ _)
  | exact fallback_logAll hp _
  | exact logAll_pure _ _
  | apply logAll_bind
  | intro _
  | dsimp only
  | split

theorem gtid_logAll {P : Ev → Bool} (self : APIFootballClient) (env : Env)
    (ny : Int) (tn : String) (lid : Value) (cs : Option Int)
    (hp : ∀ s, P (Ev.print s) = true)
    (hg : P (Ev.get "teams"
      [("league", lid), ("season", Value.int (cs.getD ny)),
       ("search", Value.str tn)]) = true) :
    LogAll P (self.get_team_id env ny tn lid cs) := by
  unfold APIFootballClient.get_team_id
  apply logAll_bind (make_request_logAll _ _ _ _ hp hg)
  intro a
  obtain ⟨v, c⟩ := a
  repeat' first
  | exact logAll_return _ _ _
  | exact logAll_raise _ _
  | exact logAll_print _ (hp _)
  | exact logAll_pyIter _ _
  | exact logAll_pyIndex _ _ _
  | exact logAll_pyLower _ _
  | exact logAll_pure _ _
  | apply logAll_bind
  | intro _
  | dsimp only
  | split

theorem reportGeneral_logAll {P : Ev → Bool} (hp : ∀ s, P (Ev.print s) = true)
    (ts : Value) : LogAll P (reportGeneral ts) := by
  unfold reportGeneral
  repeat' first
  | exact logAll_print _ (hp _)
  | exact logAll_pyContains _ _ _
  | exact logAll_pyGet _ _ _
  | exact logAll_pyIndex _ _ _
  | exact logAll_pure _ _
  | apply logAll_bind
  | intro _
  | dsimp only
  | split

theorem reportFixtures_logAll {P : Ev → Bool} (hp : ∀ s, P (Ev.print s) = true)
    (ts : Value) : LogAll P (reportFixtures ts) := by
  unfold reportFixtures
  repeat' first
  | exact logAll_print _ (hp _)
  | exact logAll_pyContains _ _ _
  | exact logAll_pyGet _ _ _
  | exact logAll_pyIndex _ _ _
  | exact logAll_pure _ _
  | apply logAll_bind
  | intro _
  | dsimp only
  | split

theorem reportGoals_logAll {P : Ev → Bool} (hp : ∀ s, P (Ev.print s) = true)
    (ts : Value) (c : APIFootballClient) : LogAll P (reportGoals ts c) := by
  unfold reportGoals
  repeat' first
  | exact logAll_return _ _ _
  | exact logAll_print _ (hp _)
  | exact logAll_pyContains _ _ _
  | exact logAll_pyGet _ _ _
  | exact logAll_pyGetD _ _ _ _
  | exact logAll_pyIndex _ _ _
  | exact logAll_pure _ _
  | apply logAll_bind
  | intro _
  | dsimp only
  | split

theorem gts_logAll {P : Ev → Bool} (self : APIFootballClient) (env : Env)
    (ny : Int) (tn ln cn : String)
    (hp : ∀ s, P (Ev.print s) = true)
    (hg1 : P (Ev.get "leagues"
      [("name", Value.str ln), ("country", Value.str cn),
       ("season", Value.int ny)]) = true)
    (hg2 : ∀ lid, P (Ev.get "teams"
      [("league", lid), ("season", Value.int ny),
       ("search", Value.str tn)]) = true)
    (hg3 : ∀ lid tid, P (Ev.get "teams/statistics"
      [("league", lid), ("team", tid), ("season", Value.int ny)]) = true) :
    LogAll P (self.get_team_statistics env ny tn ln cn) := by
  unfold APIFootballClient.get_team_statistics
  apply logAll_bind (logAll_print _ (hp _))
  intro u1
  apply logAll_bind (glid_logAll _ _ _ _ _ _ hp hg1)
  intro a
  obtain ⟨v1, c1⟩ := a
  dsimp only
  split
  · exact logAll_return _ _ _
  · apply logAll_bind (logAll_print _ (hp _))
    intro u2
    apply logAll_bind (logAll_print _ (hp _))
    intro u3
    apply logAll_bind (gtid_logAll _ _ _ _ _ _ hp (hg2 _))
    intro a2
    obtain ⟨v2, c2⟩ := a2
    dsimp only
    split
    · exact logAll_return _ _ _
    · apply logAll_bind (logAll_print _ (hp _))
      intro u4
      apply logAll_bind (logAll_print _ (hp _))
      intro u5
      apply logAll_bind (make_request_logAll _ _ _ _ hp (hg3 _ _))
      intro a3
      obtain ⟨v3, c3⟩ := a3
      repeat' first
      | exact logAll_return _ _ _
      | exact logAll_print _ (hp _)
      | exact reportGeneral_logAll hp _
      | exact reportFixtures_logAll hp _
      | exact reportGoals_logAll hp _ _
      | exact logAll_pure _ _
      | apply logAll_bind
      | intro _
      | dsimp only
      | split
@[simp] theorem truthy_null : Value.null.truthy = false := rfl
@[simp] theorem truthy_bool (b : Bool) : (Value.bool b).truthy = b := rfl
@[simp] theorem truthy_int (n : Int) : (Value.int n).truthy = (n != 0) := rfl
@[simp] theorem truthy_str (s : String) : (Value.str s).truthy = !(s == "") := rfl
@[simp] theorem truthy_list (xs : List Value) : (Value.list xs).truthy = !xs.isEmpty := rfl
@[simp] theorem truthy_dict (kvs : List (String × Value)) :
    (Value.dict kvs).truthy = !kvs.isEmpty := rfl

theorem make_request_errorish (self : APIFootballClient) (env : Env)
    (ep : String) (ps : List (String × Value))
    (h : (env (self.base_url ++ "/" ++ ep) self.headers ps).errorish = true) :
    ∃ log v, self.make_request env ep ps = ⟨log, .ok (v, self)⟩ ∧ v.truthy = false := by
  revert h
  unfold APIFootballClient.make_request doGet
  dsimp only
  generalize env (self.base_url ++ "/" ++ ep) self.headers ps = o
  intro h
  cases o with
  | connError m => exact ⟨_, Value.null, rfl, rfl⟩
  | timeout m => exact ⟨_, Value.null, rfl, rfl⟩
  | reqError m => exact ⟨_, Value.null, rfl, rfl⟩
  | resp status body =>
    simp only [HttpOutcome.errorish] at h
    by_cases hs : 400 ≤ status ∧ status < 600
    · simp only [PyM.bind_eq, PyM.bind, PyM.pure_eq, pyPrint, pyReturn, if_pos hs,
        apply_ite PyM.res, ite_self]
      exact ⟨_, Value.null, rfl, rfl⟩
    · rw [if_neg hs] at h
      simp only [PyM.bind_eq, PyM.bind, PyM.pure_eq, pyPrint, pyReturn, if_neg hs]
      cases body with
      | none => exact ⟨_, Value.null, rfl, rfl⟩
      | some data =>
        cases data with
        | dict kvs =>
          dsimp only at h
          have hr : ((lookupV kvs "response").getD Value.null).truthy = false := by
            cases hb : ((lookupV kvs "response").getD Value.null).truthy
            · rfl
            · rw [hb] at h; simp at h
          simp only [PyM.bind_eq, PyM.bind, PyM.pure_eq, pyPrint, pyReturn, pyGet,
            hr, Bool.and_false, truthy_null, Bool.false_eq_true, reduceIte,
            apply_ite PyM.res, apply_ite PyM.log, ite_self,
            List.nil_append, List.append_nil]
          exact ⟨_, Value.list [], rfl, rfl⟩
        | null => simp at h
        | bool b => simp at h
        | int n => simp at h
        | str s => simp at h
        | list xs => simp at h
theorem glid_errorish (self : APIFootballClient) (env : Env) (ny : Int)
    (ln cn : String) (cs : Option Int)
    (h : ∀ u hs ps, (env u hs ps).errorish = true) :
    ∃ log, self.get_league_id env ny ln cn cs = ⟨log, .ok (Value.null, self)⟩ := by
  unfold APIFootballClient.get_league_id
  dsimp only
  obtain ⟨log, v, hmr, hv⟩ := make_request_errorish self env "leagues"
    [("name", Value.str ln), ("country", Value.str cn),
     ("season", Value.int (cs.getD ny))] (h _ _ _)
  rw [PyM.bind_eq, hmr]
  simp only [PyM.bind, PyM.pure_eq, pyPrint, pyReturn, hv, Bool.not_false, reduceIte]
  exact ⟨_, rfl⟩

theorem gtid_errorish (self : APIFootballClient) (env : Env) (ny : Int)
    (tn : String) (lid : Value) (cs : Option Int)
    (h : ∀ u hs ps, (env u hs ps).errorish = true) :
    ∃ log, self.get_team_id env ny tn lid cs = ⟨log, .ok (Value.null, self)⟩ := by
  unfold APIFootballClient.get_team_id
  dsimp only
  obtain ⟨log, v, hmr, hv⟩ := make_request_errorish self env "teams"
    [("league", lid), ("season", Value.int (cs.getD ny)),
     ("search", Value.str tn)] (h _ _ _)
  rw [PyM.bind_eq, hmr]
  simp only [PyM.bind, PyM.pure_eq, pyPrint, pyReturn, hv, Bool.not_false, reduceIte]
  exact ⟨_, rfl⟩

theorem gts_errorish (self : APIFootballClient) (env : Env) (ny : Int)
    (tn ln cn : String)
    (h : ∀ u hs ps, (env u hs ps).errorish = true) :
    ∃ log, self.get_team_statistics env ny tn ln cn = ⟨log, .ok (Value.null, self)⟩ := by
  unfold APIFootballClient.get_team_statistics
  dsimp only
  obtain ⟨log, hglid⟩ := glid_errorish self env ny ln cn (some ny) h
  rw [PyM.bind_eq, PyM.bind, pyPrint]
  dsimp only
  rw [PyM.bind_eq, hglid]
  simp only [PyM.bind, pyReturn, Value.isNull, reduceIte]
  exact ⟨_, rfl⟩
@[simp] theorem dlookup_dict (kvs : List (String × Value)) (k : String) :
    (Value.dict kvs).dlookup k = lookupV kvs k := rfl

theorem pyGet_dict (kvs : List (String × Value)) (k : String) :
    pyGet (Value.dict kvs) k = pure ((lookupV kvs k).getD Value.null) := rfl

theorem pyGetD_dict (kvs : List (String × Value)) (k : String) (d : Value) :
    pyGetD (Value.dict kvs) k d = pure ((lookupV kvs k).getD d) := rfl

theorem pyIndex_dict_some {kvs : List (String × Value)} {k : String} {x : Value}
    (h : lookupV kvs k = some x) : pyIndex (Value.dict kvs) k = pure x := by
  simp [pyIndex, h]

theorem scanSeasons_none (season : Int) (ld : Value) (xs : List Value)
    (hwf : ∀ si ∈ xs, si.isDict = true)
    (hno : ∀ si ∈ xs, specSeasonMatch season si = false) :
    scanSeasons season ld xs = ⟨[], .ok none⟩ := by
  induction xs with
  | nil => rfl
  | cons s t ih =>
    have hd := hwf s (by simp)
    obtain ⟨kvs, rfl⟩ : ∃ kvs, s = Value.dict kvs := by
      cases s <;> simp [Value.isDict] at hd ⊢
    have hns := hno (Value.dict kvs) (by simp)
    have iht := ih (fun si h => hwf si (by simp [h])) (fun si h => hno si (by simp [h]))
    unfold scanSeasons
    simp only [specSeasonMatch, dlookup_dict, Bool.and_eq_false_iff] at hns
    simp only [PyM.bind_eq, PyM.bind, PyM.pure_eq, pyGet_dict, pyGetD_dict]
    rcases hns with hy | hc
    · simp only [hy, Bool.false_eq_true, reduceIte, iht, List.nil_append]
    · by_cases hy : pyEqInt ((lookupV kvs "year").getD Value.null) season = true
      · simp only [hy, reduceIte, hc, Bool.false_eq_true, iht, List.nil_append]
      · simp only [Bool.not_eq_true] at hy
        simp only [hy, Bool.false_eq_true, reduceIte, iht, List.nil_append]
theorem scanSeasons_found (season : Int) (ld : Value) (xs : List Value) (i : Value)
    (hwf : ∀ si ∈ xs, si.isDict = true)
    (hany : xs.any (specSeasonMatch season) = true)
    (hid : ld.dlookup "id" = some i) :
    scanSeasons season ld xs = ⟨[], .ok (some i)⟩ := by
  obtain ⟨lkvs, rfl⟩ : ∃ lkvs, ld = Value.dict lkvs := by
    cases ld <;> simp [Value.dlookup] at hid ⊢
  simp only [dlookup_dict] at hid
  induction xs with
  | nil => simp at hany
  | cons s t ih =>
    have hd := hwf s (by simp)
    obtain ⟨kvs, rfl⟩ : ∃ kvs, s = Value.dict kvs := by
      cases s <;> simp [Value.isDict] at hd ⊢
    unfold scanSeasons
    simp only [PyM.bind_eq, PyM.bind, PyM.pure_eq, pyGet_dict, pyGetD_dict]
    by_cases hm : specSeasonMatch season (Value.dict kvs) = true
    · simp only [specSeasonMatch, dlookup_dict, Bool.and_eq_true] at hm
      simp only [hm.1, hm.2, reduceIte, pyIndex_dict_some hid, PyM.pure_eq,
        List.nil_append]
    · have hant : t.any (specSeasonMatch season) = true := by
        simp only [List.any_cons, Bool.or_eq_true] at hany
        rcases hany with h1 | h1
        · exact absurd h1 hm
        · exact h1
      have iht := ih (fun si h => hwf si (by simp [h])) hant
      simp only [specSeasonMatch, dlookup_dict, Bool.and_eq_true, not_and] at hm
      by_cases hy : pyEqInt ((lookupV kvs "year").getD Value.null) season = true
      · have hc : ((lookupV kvs "current").getD (Value.bool false)).truthy = false := by
          cases hcb : ((lookupV kvs "current").getD (Value.bool false)).truthy
          · rfl
          · exact absurd hcb (hm hy)
        simp only [hy, reduceIte, hc, Bool.false_eq_true, iht, List.nil_append]
      · simp only [Bool.not_eq_true] at hy
        simp only [hy, Bool.false_eq_true, reduceIte, iht, List.nil_append]
theorem wfLeague_parts {l : Value} (h : wfLeague l = true) :
    ∃ kvs xs, l = Value.dict kvs ∧
      (lookupV kvs "seasons").getD (Value.list []) = Value.list xs ∧
      (∀ si ∈ xs, si.isDict = true) := by
  obtain ⟨kvs, rfl⟩ : ∃ kvs, l = Value.dict kvs := by
    unfold wfLeague at h
    cases l <;> simp [Value.isDict] at h ⊢
  unfold wfLeague at h
  simp only [Value.isDict, Bool.true_and, dlookup_dict] at h
  cases hv : (lookupV kvs "seasons").getD (Value.list []) with
  | list xs =>
    refine ⟨kvs, xs, rfl, hv, ?_⟩
    rw [hv] at h
    simpa [List.all_eq_true] using h
  | null => rw [hv] at h; simp at h
  | bool b => rw [hv] at h; simp at h
  | int n => rw [hv] at h; simp at h
  | str s => rw [hv] at h; simp at h
  | dict d => rw [hv] at h; simp at h

theorem specLeagueMatch_dict (season : Int) (kvs : List (String × Value)) (xs : List Value)
    (hv : (lookupV kvs "seasons").getD (Value.list []) = Value.list xs) :
    specLeagueMatch season (Value.dict kvs) = xs.any (specSeasonMatch season) := by
  unfold specLeagueMatch
  rw [dlookup_dict, hv]

theorem scanLeagues_none (season : Int) (ls : List Value)
    (hwf : ∀ l ∈ ls, wfLeague l = true)
    (hno : ∀ l ∈ ls, specLeagueMatch season l = false) :
    scanLeagues season ls = ⟨[], .ok none⟩ := by
  induction ls with
  | nil => rfl
  | cons l t ih =>
    obtain ⟨kvs, xs, rfl, hv, hsd⟩ := wfLeague_parts (hwf l (by simp))
    have hnl := hno (Value.dict kvs) (by simp)
    rw [specLeagueMatch_dict season kvs xs hv] at hnl
    have hns : ∀ si ∈ xs, specSeasonMatch season si = false := by
      intro si hsi
      cases hb : specSeasonMatch season si
      · rfl
      · exact absurd (List.any_of_mem hsi hb) (by simp [hnl])
    have iht := ih (fun x h => hwf x (by simp [h])) (fun x h => hno x (by simp [h]))
    unfold scanLeagues
    simp only [PyM.bind_eq, PyM.bind, PyM.pure_eq, pyGetD_dict, hv, pyIter,
      scanSeasons_none season (Value.dict kvs) xs hsd hns, iht, List.nil_append]
theorem scanLeagues_found (season : Int) (ls : List Value) (ld i : Value)
    (hwf : ∀ l ∈ ls, wfLeague l = true)
    (hfind : ls.find? (specLeagueMatch season) = some ld)
    (hid : ld.dlookup "id" = some i) :
    scanLeagues season ls = ⟨[], .ok (some i)⟩ := by
  induction ls with
  | nil => simp at hfind
  | cons l t ih =>
    obtain ⟨kvs, xs, rfl, hv, hsd⟩ := wfLeague_parts (hwf l (by simp))
    by_cases hm : specLeagueMatch season (Value.dict kvs) = true
    · rw [List.find?_cons_of_pos _ hm] at hfind
      obtain rfl : Value.dict kvs = ld := by simpa using hfind
      rw [specLeagueMatch_dict season kvs xs hv] at hm
      unfold scanLeagues
      simp only [PyM.bind_eq, PyM.bind, PyM.pure_eq, pyGetD_dict, hv, pyIter,
        scanSeasons_found season (Value.dict kvs) xs i hsd hm hid, List.nil_append]
    · have hmf : specLeagueMatch season (Value.dict kvs) = false := by
        cases hb : specLeagueMatch season (Value.dict kvs)
        · rfl
        · exact absurd hb hm
      rw [List.find?_cons_of_neg _ (by simp [hmf])] at hfind
      have hns : ∀ si ∈ xs, specSeasonMatch season si = false := by
        rw [specLeagueMatch_dict season kvs xs hv] at hmf
        intro si hsi
        cases hb : specSeasonMatch season si
        · rfl
        · exact absurd (List.any_of_mem hsi hb) (by simp [hmf])
      have iht := ih (fun x h => hwf x (by simp [h])) hfind
      unfold scanLeagues
      simp only [PyM.bind_eq, PyM.bind, PyM.pure_eq, pyGetD_dict, hv, pyIter,
        scanSeasons_none season (Value.dict kvs) xs hsd hns, iht, List.nil_append]

theorem fallback_found (ls : List Value) (ld i : Value)
    (hwf : ∀ l ∈ ls, l.isDict = true)
    (hfind : ls.find? hasTruthyId = some ld)
    (hid : ld.dlookup "id" = some i) :
    fallbackLeagues ls =
      ⟨[Ev.print "Warning: No current season found. Returning ID for any available season."],
       .ok (some i)⟩ := by
  induction ls with
  | nil => simp at hfind
  | cons l t ih =>
    have hd := hwf l (by simp)
    obtain ⟨kvs, rfl⟩ : ∃ kvs, l = Value.dict kvs := by
      cases l <;> simp [Value.isDict] at hd ⊢
    by_cases ht : hasTruthyId (Value.dict kvs) = true
    · rw [List.find?_cons_of_pos _ ht] at hfind
      obtain rfl : Value.dict kvs = ld := by simpa using hfind
      have hlook : lookupV kvs "id" = some i := by simpa using hid
      unfold fallbackLeagues
      have ht2 : ((lookupV kvs "id").getD Value.null).truthy = true := by
        have := ht
        rw [hasTruthyId, recId, dlookup_dict] at this
        exact this
      simp only [PyM.bind_eq, PyM.bind, PyM.pure_eq, pyGet_dict, pyPrint,
        ht2, reduceIte, pyIndex_dict_some hlook, List.nil_append, List.append_nil]
    · have htf : hasTruthyId (Value.dict kvs) = false := by
        cases hb : hasTruthyId (Value.dict kvs)
        · rfl
        · exact absurd hb ht
      rw [List.find?_cons_of_neg _ (by simp [htf])] at hfind
      have iht := ih (fun x h => hwf x (by simp [h])) hfind
      unfold fallbackLeagues
      have ht2 : ((lookupV kvs "id").getD Value.null).truthy = false := by
        have := htf
        rw [hasTruthyId, recId, dlookup_dict] at this
        exact this
      simp only [PyM.bind_eq, PyM.bind, PyM.pure_eq, pyGet_dict, ht2,
        Bool.false_eq_true, reduceIte, iht, List.nil_append]

theorem fallback_none (ls : List Value)
    (hwf : ∀ l ∈ ls, l.isDict = true)
    (hall : ∀ l ∈ ls, hasTruthyId l = false) :
    fallbackLeagues ls = ⟨[], .ok none⟩ := by
  induction ls with
  | nil => rfl
  | cons l t ih =>
    have hd := hwf l (by simp)
    obtain ⟨kvs, rfl⟩ : ∃ kvs, l = Value.dict kvs := by
      cases l <;> simp [Value.isDict] at hd ⊢
    have htf := hall (Value.dict kvs) (by simp)
    have iht := ih (fun x h => hwf x (by simp [h])) (fun x h => hall x (by simp [h]))
    unfold fallbackLeagues
    have ht2 : ((lookupV kvs "id").getD Value.null).truthy = false := by
      have := htf
      rw [hasTruthyId, recId, dlookup_dict] at this
      exact this
    simp only [PyM.bind_eq, PyM.bind, PyM.pure_eq, pyGet_dict, ht2,
      Bool.false_eq_true, reduceIte, iht, List.nil_append]
theorem make_request_payload (self : APIFootballClient) (env : Env)
    (ep : String) (ps : List (String × Value)) (r : Value)
    (henv : env (self.base_url ++ "/" ++ ep) self.headers ps
      = HttpOutcome.resp 200 (some (Value.dict [("response", r)])))
    (hr : r.truthy = true) :
    self.make_request env ep ps = ⟨[Ev.get ep ps], .ok (r, self)⟩ := by
  unfold APIFootballClient.make_request doGet
  dsimp only
  rw [henv]
  have hlook : lookupV [("response", r)] "response" = some r := rfl
  simp only [PyM.bind_eq, PyM.bind, PyM.pure_eq, pyGet_dict, pyReturn,
    pyIndex_dict_some hlook, hlook, truthy_dict, Option.getD_some, hr,
    List.isEmpty_cons, Bool.not_false, Bool.and_self, reduceIte,
    if_neg (show ¬(400 ≤ 200 ∧ 200 < 600) by omega),
    List.nil_append, List.append_nil]
theorem glid_found (self : APIFootballClient) (env : Env) (ny season : Int)
    (ln cn : String) (leagues : List Value) (ld i : Value)
    (henv : env (self.base_url ++ "/" ++ "leagues") self.headers
        [("name", Value.str ln), ("country", Value.str cn), ("season", Value.int season)]
      = HttpOutcome.resp 200 (some (Value.dict [("response", Value.list leagues)])))
    (hwf : ∀ l ∈ leagues, wfLeague l = true)
    (hfind : leagues.find? (specLeagueMatch season) = some ld)
    (hid : ld.dlookup "id" = some i) :
    self.get_league_id env ny ln cn (some season) =
      ⟨[Ev.get "leagues"
          [("name", Value.str ln), ("country", Value.str cn), ("season", Value.int season)]],
       .ok (i, self)⟩ := by
  have hne : leagues ≠ [] := by
    intro h
    rw [h] at hfind
    simp at hfind
  have hr : (Value.list leagues).truthy = true := by
    simp [List.isEmpty_eq_true, hne]
  unfold APIFootballClient.get_league_id
  dsimp only
  simp only [Option.getD_some]
  rw [PyM.bind_eq, make_request_payload self env "leagues" _ (Value.list leagues) henv hr]
  simp only [PyM.bind_eq, PyM.bind, PyM.pure_eq, pyReturn, pyIter, hr, Bool.not_true,
    Bool.false_eq_true, reduceIte,
    scanLeagues_found season leagues ld i hwf hfind hid,
    List.nil_append, List.append_nil, List.singleton_append]

theorem glid_fallback (self : APIFootballClient) (env : Env) (ny season : Int)
    (ln cn : String) (leagues : List Value) (ld i : Value)
    (henv : env (self.base_url ++ "/" ++ "leagues") self.headers
        [("name", Value.str ln), ("country", Value.str cn), ("season", Value.int season)]
      = HttpOutcome.resp 200 (some (Value.dict [("response", Value.list leagues)])))
    (hwf : ∀ l ∈ leagues, wfLeague l = true)
    (hno : ∀ l ∈ leagues, specLeagueMatch season l = false)
    (hfind : leagues.find? hasTruthyId = some ld)
    (hid : ld.dlookup "id" = some i) :
    self.get_league_id env ny ln cn (some season) =
      ⟨[Ev.get "leagues"
          [("name", Value.str ln), ("country", Value.str cn), ("season", Value.int season)],
        Ev.print "Warning: No current season found. Returning ID for any available season."],
       .ok (i, self)⟩ := by
  have hne : leagues ≠ [] := by
    intro h
    rw [h] at hfind
    simp at hfind
  have hr : (Value.list leagues).truthy = true := by
    simp [List.isEmpty_eq_true, hne]
  have hwfd : ∀ l ∈ leagues, l.isDict = true := by
    intro l hl
    obtain ⟨kvs, _, rfl, _, _⟩ := wfLeague_parts (hwf l hl)
    rfl
  unfold APIFootballClient.get_league_id
  dsimp only
  simp only [Option.getD_some]
  rw [PyM.bind_eq, make_request_payload self env "leagues" _ (Value.list leagues) henv hr]
  simp only [PyM.bind_eq, PyM.bind, PyM.pure_eq, pyReturn, pyIter, hr, Bool.not_true,
    Bool.false_eq_true, reduceIte,
    scanLeagues_none season leagues hwf hno,
    fallback_found leagues ld i hwfd hfind hid,
    List.nil_append, List.append_nil, List.singleton_append]

theorem glid_notfound (self : APIFootballClient) (env : Env) (ny season : Int)
    (ln cn : String) (leagues : List Value)
    (henv : env (self.base_url ++ "/" ++ "leagues") self.headers
        [("name", Value.str ln), ("country", Value.str cn), ("season", Value.int season)]
      = HttpOutcome.resp 200 (some (Value.dict [("response", Value.list leagues)])))
    (hne : leagues ≠ [])
    (hwf : ∀ l ∈ leagues, wfLeague l = true)
    (hno : ∀ l ∈ leagues, specLeagueMatch season l = false)
    (hallf : ∀ l ∈ leagues, hasTruthyId l = false) :
    self.get_league_id env ny ln cn (some season) =
      ⟨[Ev.get "leagues"
          [("name", Value.str ln), ("country", Value.str cn), ("season", Value.int season)],
        Ev.print "Could not find a current league ID."],
       .ok (Value.null, self)⟩ := by
  have hr : (Value.list leagues).truthy = true := by
    simp [List.isEmpty_eq_true, hne]
  have hwfd : ∀ l ∈ leagues, l.isDict = true := by
    intro l hl
    obtain ⟨kvs, _, rfl, _, _⟩ := wfLeague_parts (hwf l hl)
    rfl
  unfold APIFootballClient.get_league_id
  dsimp only
  simp only [Option.getD_some]
  rw [PyM.bind_eq, make_request_payload self env "leagues" _ (Value.list leagues) henv hr]
  simp only [PyM.bind_eq, PyM.bind, PyM.pure_eq, pyReturn, pyPrint, pyIter, hr, Bool.not_true,
    Bool.false_eq_true, reduceIte,
    scanLeagues_none season leagues hwf hno,
    fallback_none leagues hwfd hallf,
    List.nil_append, List.append_nil, List.singleton_append]
theorem make_request_envelope (self : APIFootballClient) (env : Env)
    (ep : String) (ps : List (String × Value)) (s : Nat) (kvs : List (String × Value))
    (henv : env (self.base_url ++ "/" ++ ep) self.headers ps
      = HttpOutcome.resp s (some (Value.dict kvs)))
    (hs : ¬(400 ≤ s ∧ s < 600)) :
    (∀ r, lookupV kvs "response" = some r → isNonemptyContainer r = true →
        self.make_request env ep ps = ⟨[Ev.get ep ps], .ok (r, self)⟩)
    ∧ ((lookupV kvs "response" = none ∨
        (∃ r, lookupV kvs "response" = some r ∧ isEmptyContainer r = true)) →
        ∃ log, self.make_request env ep ps = ⟨log, .ok (Value.list [], self)⟩ ∧
          (((lookupV kvs "errors").getD Value.null).truthy = true →
            Ev.print "API Error: errors field present" ∈ log)) := by
  constructor
  · intro r hlook hne
    have hkne : kvs ≠ [] := by
      intro h
      rw [h] at hlook
      simp [lookupV] at hlook
    have hdt : (Value.dict kvs).truthy = true := by
      simp [List.isEmpty_eq_true, hkne]
    have hrt : r.truthy = true := by
      cases r <;> simp [isNonemptyContainer] at hne ⊢ <;> assumption
    unfold APIFootballClient.make_request doGet
    dsimp only
    rw [henv]
    simp only [PyM.bind_eq, PyM.bind, PyM.pure_eq, pyGet_dict, pyReturn,
      pyIndex_dict_some hlook, hlook, Option.getD_some, hdt, hrt,
      Bool.and_self, reduceIte, if_neg hs, List.nil_append, List.append_nil]
  · intro hre
    have hrf : ((lookupV kvs "response").getD Value.null).truthy = false := by
      rcases hre with h | ⟨r, hlook, hemp⟩
      · simp [h]
      · rw [hlook]
        cases r <;> simp [isEmptyContainer] at hemp ⊢ <;> simp [hemp]
    unfold APIFootballClient.make_request doGet
    dsimp only
    rw [henv]
    by_cases hk : kvs.isEmpty = true
    · have hdt : (Value.dict kvs).truthy = false := by simp [hk]
      by_cases he : ((lookupV kvs "errors").getD Value.null).truthy = true
      · refine ⟨[Ev.get ep ps, Ev.print "API Error: errors field present"], ?_, ?_⟩
        · simp only [PyM.bind_eq, PyM.bind, PyM.pure_eq, pyGet_dict, pyReturn, pyPrint,
            hdt, hrf, he, Bool.false_and, Bool.and_false, Bool.false_eq_true, reduceIte,
            if_neg hs, List.nil_append, List.append_nil, List.singleton_append]
        · intro _
          simp
      · have hef : ((lookupV kvs "errors").getD Value.null).truthy = false := by
          cases hb : ((lookupV kvs "errors").getD Value.null).truthy
          · rfl
          · exact absurd hb he
        refine ⟨[Ev.get ep ps], ?_, ?_⟩
        · simp only [PyM.bind_eq, PyM.bind, PyM.pure_eq, pyGet_dict, pyReturn, pyPrint,
            hdt, hrf, hef, Bool.false_and, Bool.and_false, Bool.false_eq_true, reduceIte,
            if_neg hs, List.nil_append, List.append_nil, List.singleton_append]
        · intro h
          exact absurd h (by simp [hef])
    · have hdt : (Value.dict kvs).truthy = true := by simp [hk]
      by_cases he : ((lookupV kvs "errors").getD Value.null).truthy = true
      · refine ⟨[Ev.get ep ps, Ev.print "API Error: errors field present"], ?_, ?_⟩
        · simp only [PyM.bind_eq, PyM.bind, PyM.pure_eq, pyGet_dict, pyReturn, pyPrint,
            hdt, hrf, he, Bool.and_false, Bool.false_eq_true, reduceIte,
            if_neg hs, List.nil_append, List.append_nil, List.singleton_append]
        · intro _
          simp
      · have hef : ((lookupV kvs "errors").getD Value.null).truthy = false := by
          cases hb : ((lookupV kvs "errors").getD Value.null).truthy
          · rfl
          · exact absurd hb he
        refine ⟨[Ev.get ep ps], ?_, ?_⟩
        · simp only [PyM.bind_eq, PyM.bind, PyM.pure_eq, pyGet_dict, pyReturn, pyPrint,
            hdt, hrf, hef, Bool.and_false, Bool.false_eq_true, reduceIte,
            if_neg hs, List.nil_append, List.append_nil, List.singleton_append]
        · intro h
          exact absurd h (by simp [hef])

/-! ## Claim theorems -/

/-- C1 code evaluation at the failing input: `get_team_id` examines only the
first search candidate, because the not-found print and `return None` sit
inside the `for` loop body (source lines 156-157).  With the matching
candidate in second position the claimed scan would return 33, but the code
returns `None`; with the matching candidate first (the claim's own example)
it does return 33. -/
theorem c1_team_scan_first_only :
    (clientA.get_team_id (envResp (Value.list [teamMC, teamMU])) 2025 "Manchester United"
        (Value.int 39) (some 2025)).res = .ok (Value.null, clientA)
    ∧ (clientA.get_team_id (envResp (Value.list [teamMU, teamMC])) 2025 "Manchester United"
        (Value.int 39) (some 2025)).res = .ok (Value.int 33, clientA) := ⟨rfl, rfl⟩

/-- C2 code evaluation at the failing inputs: when the statistics payload
has no `goals` key, `get_team_statistics` falls off the end of the
`if goals` block and returns `None`, losing the fetched statistics; when
`fixtures` is present but lacks the `played` key, the subscript access
raises `KeyError`.  The spec scenario (missing `fixtures`, `goals` present)
does return the payload. -/
theorem c2_report_loses_value :
    (clientA.get_team_statistics (envPipeline statsNoGoals) 2025 "Manchester United"
        "Premier League" "England").res = .ok (Value.null, clientA)
    ∧ (clientA.get_team_statistics (envPipeline statsBadFixtures) 2025 "Manchester United"
        "Premier League" "England").res = .error (.keyError "played")
    ∧ (clientA.get_team_statistics (envPipeline statsGoalsOnly) 2025 "Manchester United"
        "Premier League" "England").res = .ok (statsGoalsOnly, clientA) := ⟨rfl, rfl, rfl⟩

/-- C3 counterexample: a well-formed JSON response of unexpected shape (a
team search candidate without a `team` key) makes `get_team_id` raise an
uncaught `KeyError`, so not every input and response shape is handled
locally. -/
theorem c3_exception_escapes :
    (clientA.get_team_id (envResp (Value.list [Value.dict []])) 2025 "Manchester United"
        (Value.int 39) (some 2025)).res = .error (.keyError "team") := rfl

/-- C3 amended: for every environment in which each request's outcome lies
in the error taxonomy (network error, timeout, other request error, HTTP
4xx/5xx, non-JSON body, or a JSON-object envelope whose `response` is
absent or falsy, which covers the errors-only and empty-response
envelopes), `get_league_id`, `get_team_id` and `get_team_statistics` raise
nothing and return the `None` sentinel. -/
theorem c3_error_taxonomy_sentinels (self : APIFootballClient) (env : Env)
    (ny : Int) (ln cn tn : String) (lid : Value) (cs1 cs2 : Option Int)
    (h : ∀ u hs ps, (env u hs ps).errorish = true) :
    (∃ log, self.get_league_id env ny ln cn cs1 = ⟨log, .ok (Value.null, self)⟩)
    ∧ (∃ log, self.get_team_id env ny tn lid cs2 = ⟨log, .ok (Value.null, self)⟩)
    ∧ (∃ log, self.get_team_statistics env ny tn ln cn = ⟨log, .ok (Value.null, self)⟩) :=
  ⟨glid_errorish self env ny ln cn cs1 h,
   gtid_errorish self env ny tn lid cs2 h,
   gts_errorish self env ny tn ln cn h⟩

/-- C3 witness: the amended theorem applied to the environment in which
every request fails with a connection error. -/
theorem c3_error_taxonomy_sentinels_witness :
    (∃ log, clientA.get_league_id (envConst (.connError "down")) 2025 "Premier League"
        "England" none = ⟨log, .ok (Value.null, clientA)⟩)
    ∧ (∃ log, clientA.get_team_id (envConst (.connError "down")) 2025 "Manchester United"
        (Value.int 39) none = ⟨log, .ok (Value.null, clientA)⟩)
    ∧ (∃ log, clientA.get_team_statistics (envConst (.connError "down")) 2025
        "Manchester United" "Premier League" "England" = ⟨log, .ok (Value.null, clientA)⟩) :=
  c3_error_taxonomy_sentinels clientA (envConst (.connError "down")) 2025 "Premier League"
    "England" "Manchester United" (Value.int 39) none none (fun _ _ _ => rfl)
/-- C4: when the leagues query returns a non-empty list of well-formed
league records, `get_league_id` returns the id of the first record that
contains a season entry whose year equals the requested season and whose
`current` flag is truthy (`specLeagueMatch` renders the claim's wording). -/
theorem c4_league_exact_match (self : APIFootballClient) (env : Env)
    (ny season : Int) (ln cn : String) (leagues : List Value) (ld i : Value)
    (henv : env (self.base_url ++ "/" ++ "leagues") self.headers
        [("name", Value.str ln), ("country", Value.str cn), ("season", Value.int season)]
      = HttpOutcome.resp 200 (some (Value.dict [("response", Value.list leagues)])))
    (hwf : ∀ l ∈ leagues, wfLeague l = true)
    (hfind : leagues.find? (specLeagueMatch season) = some ld)
    (hid : ld.dlookup "id" = some i) :
    self.get_league_id env ny ln cn (some season) =
      ⟨[Ev.get "leagues"
          [("name", Value.str ln), ("country", Value.str cn), ("season", Value.int season)]],
       .ok (i, self)⟩ :=
  glid_found self env ny season ln cn leagues ld i henv hwf hfind hid

/-- C4 witness: the claim's concrete scenario, one record with id 39 whose
2024 season is flagged current, requested season 2024, resolves to 39. -/
theorem c4_league_exact_match_witness :
    clientA.get_league_id (envResp (Value.list [leagueCur2024])) 2025 "Premier League"
        "England" (some 2024) =
      ⟨[Ev.get "leagues"
          [("name", Value.str "Premier League"), ("country", Value.str "England"),
           ("season", Value.int 2024)]],
       .ok (Value.int 39, clientA)⟩ :=
  c4_league_exact_match clientA (envResp (Value.list [leagueCur2024])) 2025 2024
    "Premier League" "England" [leagueCur2024] leagueCur2024 (Value.int 39)
    rfl (by decide) rfl rfl
/-- C5 counterexample: a league record whose `id` is the integer 0 has an id
yet the fallback skips it (the code tests Python truthiness, and 0 is
falsy), so `get_league_id` returns `None` where the claim requires 0. -/
theorem c5_fallback_skips_id_zero :
    (clientA.get_league_id (envResp (Value.list [leagueId0])) 2025 "Premier League"
        "England" (some 2024)).res = .ok (Value.null, clientA)
    ∧ leagueId0.dlookup "id" = some (Value.int 0) := ⟨rfl, rfl⟩

/-- C5 amended: when no well-formed league record matches the requested
season as current, `get_league_id` falls back to the first record whose id
is truthy (present and non-zero), returning that id and printing the
warning; when no record has a truthy id it prints the not-found message and
returns `None`. -/
theorem c5_league_fallback_amended (self : APIFootballClient) (env : Env)
    (ny season : Int) (ln cn : String) (leagues : List Value)
    (henv : env (self.base_url ++ "/" ++ "leagues") self.headers
        [("name", Value.str ln), ("country", Value.str cn), ("season", Value.int season)]
      = HttpOutcome.resp 200 (some (Value.dict [("response", Value.list leagues)])))
    (hne : leagues ≠ [])
    (hwf : ∀ l ∈ leagues, wfLeague l = true)
    (hno : ∀ l ∈ leagues, specLeagueMatch season l = false) :
    (∀ ld i, leagues.find? hasTruthyId = some ld → ld.dlookup "id" = some i →
      self.get_league_id env ny ln cn (some season) =
        ⟨[Ev.get "leagues"
            [("name", Value.str ln), ("country", Value.str cn), ("season", Value.int season)],
          Ev.print "Warning: No current season found. Returning ID for any available season."],
         .ok (i, self)⟩)
    ∧ ((∀ l ∈ leagues, hasTruthyId l = false) →
      self.get_league_id env ny ln cn (some season) =
        ⟨[Ev.get "leagues"
            [("name", Value.str ln), ("country", Value.str cn), ("season", Value.int season)],
          Ev.print "Could not find a current league ID."],
         .ok (Value.null, self)⟩) := by
  constructor
  · intro ld i hfind hid
    exact glid_fallback self env ny season ln cn leagues ld i henv hwf hno hfind hid
  · intro hall
    exact glid_notfound self env ny season ln cn leagues henv hne hwf hno hall

/-- C5 witness: one record with id 40 and no 2024 season; resolution falls
back to 40 and emits the warning, observably different from an exact
match. -/
theorem c5_league_fallback_amended_witness :
    clientA.get_league_id (envResp (Value.list [leagueOld])) 2025 "Premier League"
        "England" (some 2024) =
      ⟨[Ev.get "leagues"
          [("name", Value.str "Premier League"), ("country", Value.str "England"),
           ("season", Value.int 2024)],
        Ev.print "Warning: No current season found. Returning ID for any available season."],
       .ok (Value.int 40, clientA)⟩ :=
  (c5_league_fallback_amended clientA (envResp (Value.list [leagueOld])) 2025 2024
      "Premier League" "England" [leagueOld] rfl (by simp) (by decide) (by decide)).1
    leagueOld (Value.int 40) rfl rfl
/-- C6 counterexample: a response with the non-2xx status 300 and a valid
JSON envelope is returned as the payload, not converted to the `None`
sentinel (`raise_for_status` only raises for 4xx/5xx); and a 200 response
whose valid-JSON body is not an object (here the array `[]`) makes
`data.get` raise an uncaught `AttributeError`, so an exception can escape
the layer. -/
theorem c6_make_request_counterexample :
    (clientA.make_request (envConst (.resp 300 (some (Value.dict
        [("response", Value.list [Value.int 1])])))) "leagues" []).res
      = .ok (Value.list [Value.int 1], clientA)
    ∧ (clientA.make_request (envConst (.resp 200 (some (Value.list [])))) "leagues" []).res
      = .error (.attributeError "get") := ⟨rfl, rfl⟩

/-- C6 amended: `_make_request` converts network failures, timeouts, other
request errors, HTTP 4xx/5xx statuses and non-JSON bodies to the `None`
sentinel; on a non-4xx/5xx response whose JSON body is an object no
exception escapes; and the `None` sentinel is distinguishable from the
empty-but-successful result `[]`. -/
theorem c6_make_request_amended (self : APIFootballClient) (env : Env)
    (ep : String) (ps : List (String × Value)) :
    (∀ m, env (self.base_url ++ "/" ++ ep) self.headers ps = .connError m →
      (self.make_request env ep ps).res = .ok (Value.null, self))
    ∧ (∀ m, env (self.base_url ++ "/" ++ ep) self.headers ps = .timeout m →
      (self.make_request env ep ps).res = .ok (Value.null, self))
    ∧ (∀ m, env (self.base_url ++ "/" ++ ep) self.headers ps = .reqError m →
      (self.make_request env ep ps).res = .ok (Value.null, self))
    ∧ (∀ s b, env (self.base_url ++ "/" ++ ep) self.headers ps = .resp s b →
      400 ≤ s → s < 600 → (self.make_request env ep ps).res = .ok (Value.null, self))
    ∧ (∀ s, env (self.base_url ++ "/" ++ ep) self.headers ps = .resp s none →
      ¬(400 ≤ s ∧ s < 600) → (self.make_request env ep ps).res = .ok (Value.null, self))
    ∧ (∀ s kvs, env (self.base_url ++ "/" ++ ep) self.headers ps
        = .resp s (some (Value.dict kvs)) → ¬(400 ≤ s ∧ s < 600) →
      ∃ v c, (self.make_request env ep ps).res = .ok (v, c))
    ∧ Value.null ≠ Value.list [] := by
  refine ⟨?_, ?_, ?_, ?_, ?_, ?_, by intro h; cases h⟩
  · intro m henv
    unfold APIFootballClient.make_request doGet
    dsimp only
    rw [henv]
    rfl
  · intro m henv
    unfold APIFootballClient.make_request doGet
    dsimp only
    rw [henv]
    rfl
  · intro m henv
    unfold APIFootballClient.make_request doGet
    dsimp only
    rw [henv]
    rfl
  · intro s b henv h4 h6
    unfold APIFootballClient.make_request doGet
    dsimp only
    rw [henv]
    simp only [PyM.bind_eq, PyM.bind, PyM.pure_eq, pyPrint, pyReturn,
      if_pos (And.intro h4 h6), apply_ite PyM.res, ite_self]
  · intro s henv hs
    unfold APIFootballClient.make_request doGet
    dsimp only
    rw [henv]
    simp only [PyM.bind_eq, PyM.bind, PyM.pure_eq, pyPrint, pyReturn, if_neg hs]
  · intro s kvs henv hs
    by_cases hr : ((lookupV kvs "response").getD Value.null).truthy = true
    · obtain ⟨r, hlook, hrt⟩ : ∃ r, lookupV kvs "response" = some r ∧ r.truthy = true := by
        cases hl : lookupV kvs "response" with
        | none => rw [hl] at hr; simp at hr
        | some r => rw [hl] at hr; exact ⟨r, rfl, by simpa using hr⟩
      have hkne : kvs ≠ [] := by
        intro h
        rw [h] at hlook
        simp [lookupV] at hlook
      have hdt : (Value.dict kvs).truthy = true := by
        simp [List.isEmpty_eq_true, hkne]
      refine ⟨r, self, ?_⟩
      unfold APIFootballClient.make_request doGet
      dsimp only
      rw [henv]
      simp only [PyM.bind_eq, PyM.bind, PyM.pure_eq, pyGet_dict, pyReturn,
        pyIndex_dict_some hlook, hlook, Option.getD_some, hdt, hrt,
        Bool.and_self, reduceIte, if_neg hs, List.nil_append, List.append_nil]
    · have herr : (env (self.base_url ++ "/" ++ ep) self.headers ps).errorish = true := by
        rw [henv]
        unfold HttpOutcome.errorish
        dsimp only
        rw [if_neg hs]
        simpa using hr
      obtain ⟨log, v, heq, _⟩ := make_request_errorish self env ep ps herr
      exact ⟨v, self, by rw [heq]⟩

/-- C6 witness: the amended theorem applied at a connection error and at a
404 response. -/
theorem c6_make_request_amended_witness :
    (clientA.make_request (envConst (.connError "down")) "leagues" []).res
      = .ok (Value.null, clientA)
    ∧ (clientA.make_request (envConst (.resp 404 (some (Value.dict [("errors",
        Value.dict [("token", Value.str "bad")])])))) "leagues" []).res
      = .ok (Value.null, clientA) :=
  ⟨(c6_make_request_amended clientA (envConst (.connError "down")) "leagues" []).1
      "down" rfl,
   ((c6_make_request_amended clientA (envConst (.resp 404 (some (Value.dict [("errors",
        Value.dict [("token", Value.str "bad")])])))) "leagues" []).2.2.2.1)
      404 (some (Value.dict [("errors", Value.dict [("token", Value.str "bad")])])) rfl
      (by omega) (by omega)⟩
/-- C7: on a non-4xx/5xx response whose body parses to a JSON object, if the
`response` field is present and a non-empty array or object, `_make_request`
returns exactly that value; if `response` is absent or an empty container
the call does not raise and returns the empty list, and whenever the
`errors` field is truthy the error payload is surfaced as a printed
diagnostic. -/
theorem c7_envelope_handling (self : APIFootballClient) (env : Env)
    (ep : String) (ps : List (String × Value)) (s : Nat) (kvs : List (String × Value))
    (henv : env (self.base_url ++ "/" ++ ep) self.headers ps
      = HttpOutcome.resp s (some (Value.dict kvs)))
    (hs : ¬(400 ≤ s ∧ s < 600)) :
    (∀ r, lookupV kvs "response" = some r → isNonemptyContainer r = true →
        self.make_request env ep ps = ⟨[Ev.get ep ps], .ok (r, self)⟩)
    ∧ ((lookupV kvs "response" = none ∨
        (∃ r, lookupV kvs "response" = some r ∧ isEmptyContainer r = true)) →
        ∃ log, self.make_request env ep ps = ⟨log, .ok (Value.list [], self)⟩ ∧
          (((lookupV kvs "errors").getD Value.null).truthy = true →
            Ev.print "API Error: errors field present" ∈ log)) :=
  make_request_envelope self env ep ps s kvs henv hs

/-- C7 witness: a 200 envelope with a non-empty `response` array returns
that array; an errors-only 200 envelope returns `[]` and prints the
diagnostic. -/
theorem c7_envelope_handling_witness :
    clientA.make_request (envConst (.resp 200 (some (Value.dict
        [("response", Value.list [Value.int 1])])))) "leagues" []
      = ⟨[Ev.get "leagues" []], .ok (Value.list [Value.int 1], clientA)⟩
    ∧ ∃ log, clientA.make_request (envConst (.resp 200 (some (Value.dict
        [("errors", Value.dict [("token", Value.str "bad")])])))) "leagues" []
      = ⟨log, .ok (Value.list [], clientA)⟩ ∧
        Ev.print "API Error: errors field present" ∈ log :=
  ⟨(c7_envelope_handling clientA (envConst (.resp 200 (some (Value.dict
        [("response", Value.list [Value.int 1])])))) "leagues" [] 200
        [("response", Value.list [Value.int 1])] rfl (by omega)).1
      (Value.list [Value.int 1]) rfl rfl,
   ((c7_envelope_handling clientA (envConst (.resp 200 (some (Value.dict
        [("errors", Value.dict [("token", Value.str "bad")])])))) "leagues" [] 200
        [("errors", Value.dict [("token", Value.str "bad")])] rfl (by omega)).2
      (Or.inl rfl)).imp (fun log h => ⟨h.1, h.2 rfl⟩)⟩
theorem isNull_null : Value.null.isNull = true := rfl

theorem gts_league_null (self : APIFootballClient) (env : Env) (ny : Int)
    (tn ln cn : String) (log : List Ev) (c : APIFootballClient)
    (hl : self.get_league_id env ny ln cn (some ny) = ⟨log, .ok (Value.null, c)⟩) :
    self.get_team_statistics env ny tn ln cn =
      ⟨Ev.print "Searching for the League ID..." :: log, .ok (Value.null, c)⟩ := by
  unfold APIFootballClient.get_team_statistics
  dsimp only
  simp only [PyM.bind_eq, PyM.bind, PyM.pure_eq, pyPrint, pyReturn, hl,
    Value.isNull, reduceIte, List.nil_append, List.append_nil, List.singleton_append]

theorem gts_team_null (self : APIFootballClient) (env : Env) (ny : Int)
    (tn ln cn : String) (log1 : List Ev) (i : Value) (c1 : APIFootballClient)
    (log2 : List Ev) (c2 : APIFootballClient)
    (hl : self.get_league_id env ny ln cn (some ny) = ⟨log1, .ok (i, c1)⟩)
    (hi : i.isNull = false)
    (ht : c1.get_team_id env ny tn i (some ny) = ⟨log2, .ok (Value.null, c2)⟩) :
    self.get_team_statistics env ny tn ln cn =
      ⟨Ev.print "Searching for the League ID..." :: log1 ++
        Ev.print "Found League ID" :: Ev.print "Searching for Team ID..." :: log2,
       .ok (Value.null, c2)⟩ := by
  unfold APIFootballClient.get_team_statistics
  dsimp only
  simp only [PyM.bind_eq, PyM.bind, PyM.pure_eq, pyPrint, pyReturn, hl, ht, hi,
    isNull_null, Bool.false_eq_true, reduceIte, List.nil_append, List.append_nil,
    List.singleton_append, List.cons_append, List.append_assoc]
/-- C8: `get_team_statistics` short-circuits — if league resolution returns
`None` the whole call returns `None` and the trace contains no GET to the
`teams/statistics` endpoint; likewise if team resolution returns `None`. -/
theorem c8_orchestration_short_circuit (self : APIFootballClient) (env : Env)
    (ny : Int) (tn ln cn : String) :
    (∀ log c, self.get_league_id env ny ln cn (some ny) = ⟨log, .ok (Value.null, c)⟩ →
      (self.get_team_statistics env ny tn ln cn).res = .ok (Value.null, c)
      ∧ (self.get_team_statistics env ny tn ln cn).log.all notStatsEv = true)
    ∧ (∀ log1 i c1 log2 c2,
      self.get_league_id env ny ln cn (some ny) = ⟨log1, .ok (i, c1)⟩ →
      i.isNull = false →
      c1.get_team_id env ny tn i (some ny) = ⟨log2, .ok (Value.null, c2)⟩ →
      (self.get_team_statistics env ny tn ln cn).res = .ok (Value.null, c2)
      ∧ (self.get_team_statistics env ny tn ln cn).log.all notStatsEv = true) := by
  have hp : ∀ s, notStatsEv (Ev.print s) = true := fun _ => rfl
  constructor
  · intro log c hl
    have hglog := glid_logAll self env ny ln cn (some ny) hp rfl
    rw [hl] at hglog
    unfold LogAll at hglog
    rw [gts_league_null self env ny tn ln cn log c hl]
    refine ⟨rfl, ?_⟩
    simp only [List.all_cons, Bool.and_eq_true]
    exact ⟨rfl, hglog⟩
  · intro log1 i c1 log2 c2 hl hi ht
    have hglog := glid_logAll self env ny ln cn (some ny) hp rfl
    rw [hl] at hglog
    unfold LogAll at hglog
    have htlog := gtid_logAll c1 env ny tn i (some ny) hp rfl
    rw [ht] at htlog
    unfold LogAll at htlog
    rw [gts_team_null self env ny tn ln cn log1 i c1 log2 c2 hl hi ht]
    refine ⟨rfl, ?_⟩
    simp only [List.all_cons, List.all_append, Bool.and_eq_true]
    exact ⟨⟨rfl, hglog⟩, rfl, rfl, htlog⟩

/-- C8 witness: with every request failing with a connection error, league
resolution yields `None`, the statistics call returns `None`, and no
statistics request appears in the trace. -/
theorem c8_orchestration_short_circuit_witness :
    (clientA.get_team_statistics (envConst (.connError "down")) 2025 "Manchester United"
        "Premier League" "England").res = .ok (Value.null, clientA)
    ∧ (clientA.get_team_statistics (envConst (.connError "down")) 2025 "Manchester United"
        "Premier League" "England").log.all notStatsEv = true :=
  (c8_orchestration_short_circuit clientA (envConst (.connError "down")) 2025
      "Manchester United" "Premier League" "England").1
    [Ev.get "leagues"
        [("name", Value.str "Premier League"), ("country", Value.str "England"),
         ("season", Value.int 2025)],
      Ev.print "Connection error occurred - Check your Internet connection.",
      Ev.print "No leagues found."]
    clientA rfl
theorem finalClient_of_fixed {c : APIFootballClient} {m : PyM (Value × APIFootballClient)}
    (h : ClientFixed c m) : finalClient m = some c ∨ finalClient m = none := by
  unfold finalClient
  cases hm : m.res with
  | error e => exact Or.inr rfl
  | ok p =>
    obtain ⟨v, c2⟩ := p
    rw [h v c2 hm]
    exact Or.inl rfl

/-- C9: no operation mutates the client: whenever a call returns rather than
raising, the client state delivered at the return site is exactly the
client the call started from, so the `api_key`, `base_url` and `headers`
fields set in `__init__` are identical before and after every call. -/
theorem c9_client_state_unchanged (self : APIFootballClient) (env : Env) (ny : Int)
    (ep tn ln cn : String) (ps : List (String × Value)) (lid : Value)
    (cs1 cs2 : Option Int) :
    (finalClient (self.make_request env ep ps) = some self ∨
      finalClient (self.make_request env ep ps) = none)
    ∧ (finalClient (self.get_league_id env ny ln cn cs1) = some self ∨
      finalClient (self.get_league_id env ny ln cn cs1) = none)
    ∧ (finalClient (self.get_team_id env ny tn lid cs2) = some self ∨
      finalClient (self.get_team_id env ny tn lid cs2) = none)
    ∧ (finalClient (self.get_team_statistics env ny tn ln cn) = some self ∨
      finalClient (self.get_team_statistics env ny tn ln cn) = none) :=
  ⟨finalClient_of_fixed (make_request_fixed self env ep ps),
   finalClient_of_fixed (glid_fixed self env ny ln cn cs1),
   finalClient_of_fixed (gtid_fixed self env ny tn lid cs2),
   finalClient_of_fixed (gts_fixed self env ny tn ln cn)⟩

/-- C10: every request issued during `get_team_statistics` — the league
lookup, the team lookup and the statistics request — carries the same
`season` query parameter, the now-year of the call; since the entry point
accepts only team, league and country names, no other season can be
requested. -/
theorem c10_single_season (self : APIFootballClient) (env : Env) (year : Int)
    (tn ln cn : String) :
    (self.get_team_statistics env year tn ln cn).log.all (seasonEv year) = true := by
  have hp : ∀ s, seasonEv year (Ev.print s) = true := fun _ => rfl
  exact gts_logAll self env year tn ln cn hp
    (by simp [seasonEv, lookupV, List.find?])
    (fun lid => by simp [seasonEv, lookupV, List.find?])
    (fun lid tid => by simp [seasonEv, lookupV, List.find?])
